import Mathlib

/-!
# Verification of the InnoDB instrumented memory allocator (`ut0new.h`)

A shallow embedding of `storage/innobase/include/ut0new.h` (instrumented
dynamic memory allocation subsystem) together with theorems settling the
frozen claims about it.

Modelling conventions:
* C strings (`const char *`) are modelled as `List Char`; reading index `i`
  of a zero-terminated string is `cAt`, which yields the NUL character past
  the end of the list (exactly the bytes the source loops may read).
* `size_t` arithmetic is on `Nat`; `SIZE_MAX` is `2 ^ 64 - 1` and overflow
  conditions are stated as explicit comparisons against `SIZE_MAX`.
* A C++ type `T` is modelled by `CType`, carrying `sizeof(T)` (positive).
* The byte memory is not modelled; instead, the bookkeeping header
  (`ut_new_pfx_t`) written in front of each allocation is kept in a `Store`
  mapping the header address to the header value.
* Constructor behaviour of the element type is a function
  `throws : Nat → Option ε`: `some e` means the constructor of the element
  at that index raises exception `e`.
* Side effects (OS allocation attempts, backoff sleeps, performance-schema
  accounting calls, destructor invocations, raw-memory frees) are recorded
  as explicit event traces.
* The configuration modelled is the instrumented one (`UNIV_PFS_MEMORY`
  defined, gcc ≠ 5), which is the configuration the claims cite.
-/

/-! ## C-string model -/

/-- The NUL terminator byte of a C string. -/
def nullChar : Char := Char.ofNat 0

/-- Reading character `i` of a zero-terminated C string modelled as a
`List Char`: past the end of the list the terminator is read. -/
def cAt (s : List Char) (i : Nat) : Char := s.getD i nullChar

/-! ## Key registry (`ut0new.h` lines 232–558) -/

/-- `auto_event_names`: the fixed, alphabetically sorted list of file base
names that allocate memory and are instrumented via PFS. -/
def auto_event_names : List (List Char) :=
  [ "api0api".toList,
    "api0misc".toList,
    "btr0btr".toList,
    "btr0cur".toList,
    "btr0load".toList,
    "btr0pcur".toList,
    "btr0sea".toList,
    "btr0types".toList,
    "buf".toList,
    "buf0buddy".toList,
    "buf0buf".toList,
    "buf0checksum".toList,
    "buf0dblwr".toList,
    "buf0dump".toList,
    "buf0flu".toList,
    "buf0lru".toList,
    "buf0rea".toList,
    "buf0stats".toList,
    "buf0types".toList,
    "checksum".toList,
    "crc32".toList,
    "create".toList,
    "data0data".toList,
    "data0type".toList,
    "data0types".toList,
    "db0err".toList,
    "ddl0buffer".toList,
    "ddl0builder".toList,
    "ddl0ctx".toList,
    "ddl0ddl".toList,
    "ddl0file-reader".toList,
    "ddl0loader".toList,
    "ddl0merge".toList,
    "ddl0rtree".toList,
    "ddl0par-scan".toList,
    "dict".toList,
    "dict0boot".toList,
    "dict0crea".toList,
    "dict0dd".toList,
    "dict0dict".toList,
    "dict0load".toList,
    "dict0mem".toList,
    "dict0priv".toList,
    "dict0sdi".toList,
    "dict0stats".toList,
    "dict0stats_bg".toList,
    "dict0types".toList,
    "dyn0buf".toList,
    "dyn0types".toList,
    "eval0eval".toList,
    "eval0proc".toList,
    "fil0fil".toList,
    "fil0types".toList,
    "file".toList,
    "fsp0file".toList,
    "fsp0fsp".toList,
    "fsp0space".toList,
    "fsp0sysspace".toList,
    "fsp0types".toList,
    "fts0ast".toList,
    "fts0blex".toList,
    "fts0config".toList,
    "fts0fts".toList,
    "fts0opt".toList,
    "fts0pars".toList,
    "fts0plugin".toList,
    "fts0priv".toList,
    "fts0que".toList,
    "fts0sql".toList,
    "fts0tlex".toList,
    "fts0tokenize".toList,
    "fts0types".toList,
    "fts0vlc".toList,
    "fut0fut".toList,
    "fut0lst".toList,
    "gis0geo".toList,
    "gis0rtree".toList,
    "gis0sea".toList,
    "gis0type".toList,
    "ha0ha".toList,
    "ha0storage".toList,
    "ha_innodb".toList,
    "ha_innopart".toList,
    "ha_prototypes".toList,
    "handler0alter".toList,
    "hash0hash".toList,
    "i_s".toList,
    "ib0mutex".toList,
    "ibuf0ibuf".toList,
    "ibuf0types".toList,
    "lexyy".toList,
    "lob0lob".toList,
    "lock0iter".toList,
    "lock0lock".toList,
    "lock0prdt".toList,
    "lock0priv".toList,
    "lock0types".toList,
    "lock0wait".toList,
    "log0log".toList,
    "log0recv".toList,
    "log0write".toList,
    "mach0data".toList,
    "mem".toList,
    "mem0mem".toList,
    "memory".toList,
    "mtr0log".toList,
    "mtr0mtr".toList,
    "mtr0types".toList,
    "os0atomic".toList,
    "os0event".toList,
    "os0file".toList,
    "os0numa".toList,
    "os0once".toList,
    "os0proc".toList,
    "os0thread".toList,
    "page".toList,
    "page0cur".toList,
    "page0page".toList,
    "page0size".toList,
    "page0types".toList,
    "page0zip".toList,
    "pars0grm".toList,
    "pars0lex".toList,
    "pars0opt".toList,
    "pars0pars".toList,
    "pars0sym".toList,
    "pars0types".toList,
    "que0que".toList,
    "que0types".toList,
    "read0read".toList,
    "read0types".toList,
    "rec".toList,
    "rem0cmp".toList,
    "rem0rec".toList,
    "rem0types".toList,
    "row0ext".toList,
    "row0ft".toList,
    "row0import".toList,
    "row0ins".toList,
    "row0log".toList,
    "row0mysql".toList,
    "row0purge".toList,
    "row0quiesce".toList,
    "row0row".toList,
    "row0sel".toList,
    "row0types".toList,
    "row0uins".toList,
    "row0umod".toList,
    "row0undo".toList,
    "row0upd".toList,
    "row0vers".toList,
    "sess0sess".toList,
    "srv0conc".toList,
    "srv0mon".toList,
    "srv0srv".toList,
    "srv0start".toList,
    "srv0tmp".toList,
    "sync0arr".toList,
    "sync0debug".toList,
    "sync0policy".toList,
    "sync0sharded_rw".toList,
    "sync0rw".toList,
    "sync0sync".toList,
    "sync0types".toList,
    "trx0i_s".toList,
    "trx0purge".toList,
    "trx0rec".toList,
    "trx0roll".toList,
    "trx0rseg".toList,
    "trx0sys".toList,
    "trx0trx".toList,
    "trx0types".toList,
    "trx0undo".toList,
    "trx0xa".toList,
    "usr0sess".toList,
    "usr0types".toList,
    "ut".toList,
    "ut0byte".toList,
    "ut0counter".toList,
    "ut0crc32".toList,
    "ut0dbg".toList,
    "ut0link_buf".toList,
    "ut0list".toList,
    "ut0lock_free_hash".toList,
    "ut0lst".toList,
    "ut0mem".toList,
    "ut0mutex".toList,
    "ut0new".toList,
    "ut0pool".toList,
    "ut0rbt".toList,
    "ut0rnd".toList,
    "ut0sort".toList,
    "ut0stage".toList,
    "ut0ut".toList,
    "ut0vec".toList,
    "ut0wqueue".toList,
    "zipdecompress".toList ]

/-- `ut_string_begins_with(a, b, b_len)` (lines 499–507): compares
`a[i]` with `b[i]` for every `i < b_len`, returning whether all agree
(the source loop returns `false` at the first mismatch). -/
def ut_string_begins_with (a b : List Char) (b_len : Nat) : Bool :=
  (List.range b_len).all fun i => cAt a i == cAt b i

/-- `ut_len_without_extension(file)` (lines 512–518): length of the file
name up to the first `'.'` or the NUL terminator. -/
def ut_len_without_extension : List Char → Nat
  | [] => 0
  | c :: cs =>
      if c = '.' ∨ c = nullChar then 0 else 1 + ut_len_without_extension cs

/-- The `for (i = 0; i < n_auto; ++i) { if p(names[i]) return i; } return -1`
scan of the key-registry table (body of `ut_new_get_key_by_base_file`),
with `i` the running index. -/
def scanTable (p : List Char → Bool) : List (List Char) → Nat → Int
  | [], _ => -1
  | nm :: rest, i => if p nm then Int.ofNat i else scanTable p rest (i + 1)

/-- `ut_new_get_key_by_base_file(file, len)` (lines 525–532): index of the
first table entry `nm` with `ut_string_begins_with(nm, file, len)`, or `-1`
(standing for `PSI_NOT_INSTRUMENTED`) if none matches. -/
def ut_new_get_key_by_base_file (file : List Char) (len : Nat) : Int :=
  scanTable (fun nm => ut_string_begins_with nm file len) auto_event_names 0

/-- `ut_new_get_key_by_file(file)` (lines 538–540). -/
def ut_new_get_key_by_file (file : List Char) : Int :=
  ut_new_get_key_by_base_file file (ut_len_without_extension file)

/-- The resolution rule in the words of the spec (§4.1): the key of the
first table entry *whose name is a prefix of the identifier*. Used to
compare the spec's rule with the code's. -/
def resolve_by_callsite_spec (identifier : List Char) : Int :=
  scanTable (fun nm => decide (nm <+: identifier)) auto_event_names 0

/-- The resolution rule as amended: the key of the first table entry
*of which the identifier is a prefix*. -/
def resolve_by_callsite_amended (identifier : List Char) : Int :=
  scanTable (fun nm => decide (identifier <+: nm)) auto_event_names 0

/-! ## Common size model -/

/-- A C++ object type, as far as the allocator observes it: its `sizeof`.
`sizeof(T) >= 1` in C++. -/
structure CType where
  size : Nat
  size_pos : 0 < size

/-- `std::numeric_limits<size_t>::max()` on the 64-bit platforms the code
targets. -/
def SIZE_MAX : Nat := 2 ^ 64 - 1

/-- `PSI_NOT_INSTRUMENTED` (value 0 in the PSI headers). -/
def PSI_NOT_INSTRUMENTED : Nat := 0

/-! ## Allocator core model (`ut_allocator`, lines 612–979)

The bookkeeping header `ut_new_pfx_t` prepended to every allocation, the
store of written headers, the retry loop shared by `allocate` and
`reallocate`, and the traced events. The `m_owner` field is an opaque
handle produced by the accounting backend and is not needed by any claim,
so it is not modelled; `PSI_MEMORY_CALL(memory_alloc)` is modelled as an
opaque function `psi : key → size → key` whose result is stored in
`m_key`. Byte contents of allocations are not modelled. -/

/-- `ut_new_pfx_t` (lines 581–610): the accounting data put in front of
each allocated block. `m_size` is the total size in bytes including this
prepended structure itself. -/
structure ut_new_pfx_t where
  m_key : Nat
  m_size : Nat
deriving DecidableEq

/-- The headers written to memory, indexed by the header's address. -/
def Store : Type := Nat → Option ut_new_pfx_t

/-- Write a header at an address. -/
def storeWrite (store : Store) (addr : Nat) (pfx : ut_new_pfx_t) : Store :=
  fun a => if a = addr then some pfx else store a

/-- Remove the header at an address (the block was released). -/
def storeErase (store : Store) (addr : Nat) : Store :=
  fun a => if a = addr then none else store a

/-- Traced side effects of the allocator core: an OS allocation attempt
(`::malloc`/`::calloc`/`realloc`, with the value of the `retries`
counter), the backoff sleep (`std::this_thread::sleep_for`, seconds), and
the accounting-backend calls `memory_alloc` / `memory_free`. -/
inductive REv where
  | attempt (retries : Nat)
  | sleepSec (secs : Nat)
  | psiAlloc (key size : Nat)
  | psiFree (key size : Nat)
deriving DecidableEq

/-- The retry loop of `ut_allocator::allocate` (lines 698–710) and
`ut_allocator::reallocate` (lines 792–800):
`for (retries = 1;; retries++) { ptr = os(); if (ptr != nullptr ||
retries >= alloc_max_retries) break; sleep(1s); }`.
`os retries` is the outcome of the OS allocation on that attempt
(`none` = failure). Returns the final `ptr` and the event trace. -/
def retryFrom (os : Nat → Option Nat) (maxRetries retries : Nat) :
    Option Nat × List REv :=
  let ptr := os retries
  if h : ptr ≠ none ∨ maxRetries ≤ retries then (ptr, [REv.attempt retries])
  else
    let rest := retryFrom os maxRetries (retries + 1)
    (rest.1, REv.attempt retries :: REv.sleepSec 1 :: rest.2)
termination_by maxRetries - retries
decreasing_by
  push_neg at h
  omega

/-- `ut_allocator::max_size` (lines 660–668), `UNIV_PFS_MEMORY`
configuration: `(SIZE_MAX - sizeof(ut_new_pfx_t)) / sizeof(T)`. -/
def max_size (s pfxSize : Nat) : Nat := (SIZE_MAX - pfxSize) / s

/-- Errors thrown by `ut_allocator::allocate`. -/
inductive Err where
  | badArrayNewLength
  | badAlloc
deriving DecidableEq

/-- The key actually charged by `allocate_trace` (lines 954–957): the
allocator's own `m_key` wins unless it is `PSI_NOT_INSTRUMENTED`. -/
def memory_alloc_key (m_key key : Nat) : Nat :=
  if m_key ≠ PSI_NOT_INSTRUMENTED then m_key else key

/-- `ut_allocator::allocate_trace` (lines 954–962): calls
`memory_alloc(key, size)` on the backend, stores its result in
`pfx.m_key` and the total size in `pfx.m_size`. Returns the written
header and the accounting event. -/
def allocate_trace (psi : Nat → Nat → Nat) (m_key size key : Nat) :
    ut_new_pfx_t × REv :=
  let key' := memory_alloc_key m_key key
  ({ m_key := psi key' size, m_size := size }, REv.psiAlloc key' size)

/-- `ut_allocator::deallocate_trace` (lines 966–968): reports
`memory_free(pfx.m_key, pfx.m_size)` to the backend. -/
def deallocate_trace (pfx : ut_new_pfx_t) : REv :=
  REv.psiFree pfx.m_key pfx.m_size

/-- Number of OS allocation attempts in a trace. -/
def attemptCount (evs : List REv) : Nat :=
  evs.countP fun ev =>
    match ev with
    | REv.attempt _ => true
    | _ => false

/-- Number of backoff sleeps in a trace. -/
def sleepCount (evs : List REv) : Nat :=
  evs.countP fun ev =>
    match ev with
    | REv.sleepSec _ => true
    | _ => false

/-- Number of accounting-entry installations (`memory_alloc` calls) in a
trace. -/
def psiAllocCount (evs : List REv) : Nat :=
  evs.countP fun ev =>
    match ev with
    | REv.psiAlloc _ _ => true
    | _ => false

/-- Number of accounting-entry retirements (`memory_free` calls) in a
trace. -/
def psiFreeCount (evs : List REv) : Nat :=
  evs.countP fun ev =>
    match ev with
    | REv.psiFree _ _ => true
    | _ => false

namespace ut_allocator

/-- `ut_allocator::allocate` (lines 684–723), `UNIV_PFS_MEMORY`
configuration: throws `bad_array_new_length` when `n_elements` exceeds
`max_size()`; otherwise obtains `n_elements * sizeof(T) +
sizeof(ut_new_pfx_t)` bytes through the retry loop, throws `bad_alloc`
when that fails, else writes the header at the block start and returns
the pointer just past the header together with the updated store. -/
def allocate (T : CType) (pfxSize : Nat) (psi : Nat → Nat → Nat)
    (m_key : Nat) (os : Nat → Option Nat) (maxRetries : Nat) (store : Store)
    (n_elements key : Nat) : Except Err (Nat × Store) × List REv :=
  if max_size T.size pfxSize < n_elements then (.error .badArrayNewLength, [])
  else
    let total_bytes := n_elements * T.size + pfxSize
    let r := retryFrom os maxRetries 1
    match r.1 with
    | none => (.error .badAlloc, r.2)
    | some base =>
        let t := allocate_trace psi m_key total_bytes key
        (.ok (base + pfxSize, storeWrite store base t.1), r.2 ++ [t.2])

/-- `ut_allocator::deallocate` (lines 728–742), `UNIV_PFS_MEMORY`
configuration: no-op on null; otherwise reads the header one header-size
before the pointer, reports the deallocation and frees the block.
Reading a header that was never written is undefined behaviour in the
source; it is modelled as a no-op and no theorem relies on that case. -/
def deallocate (pfxSize : Nat) (store : Store) (ptr : Option Nat) :
    Store × List REv :=
  match ptr with
  | none => (store, [])
  | some p =>
      match store (p - pfxSize) with
      | none => (store, [])
      | some pfx => (storeErase store (p - pfxSize), [deallocate_trace pfx])

/-- `ut_allocator::reallocate` (lines 770–814): `n_elements == 0` frees
and returns null; a null `ptr` delegates to `allocate`; an oversized
request returns null; otherwise the block is resized through the retry
loop (null on exhaustion), the old header's accounting entry is retired
and the new one installed. The OS `realloc` is modelled as releasing the
old base and returning a fresh base with the old header contents
preserved (the source reads them from `pfx_new` before overwriting). -/
def reallocate (T : CType) (pfxSize : Nat) (psi : Nat → Nat → Nat)
    (m_key : Nat) (os : Nat → Option Nat) (maxRetries : Nat) (store : Store)
    (ptr : Option Nat) (n_elements key : Nat) :
    Except Err (Option Nat × Store) × List REv :=
  if n_elements = 0 then
    let d := deallocate pfxSize store ptr
    (.ok (none, d.1), d.2)
  else
    match ptr with
    | none =>
        let a := allocate T pfxSize psi m_key os maxRetries store n_elements key
        (a.1.map (fun r => (some r.1, r.2)), a.2)
    | some p =>
        if max_size T.size pfxSize < n_elements then (.ok (none, store), [])
        else
          match store (p - pfxSize) with
          | none => (.ok (none, store), [])
          | some pfx_old =>
              let total_bytes := n_elements * T.size + pfxSize
              let r := retryFrom os maxRetries 1
              match r.1 with
              | none => (.ok (none, store), r.2)
              | some newBase =>
                  let t := allocate_trace psi m_key total_bytes key
                  (.ok (some (newBase + pfxSize),
                        storeWrite (storeErase store (p - pfxSize)) newBase t.1),
                   r.2 ++ [deallocate_trace pfx_old, t.2])

/-- `ut_allocator::n_elements_allocated` (lines 939–947): reads the
header one header-size before the pointer and returns
`(m_size - sizeof(ut_new_pfx_t)) / sizeof(T)`. -/
def n_elements_allocated (T : CType) (pfxSize : Nat) (store : Store)
    (ptr : Nat) : Option Nat :=
  match store (ptr - pfxSize) with
  | none => none
  | some pfx => some ((pfx.m_size - pfxSize) / T.size)

end ut_allocator

/-! ## Object and array lifecycle models (`ut::new_*`, `ut::delete_*`,
`ut::aligned_new_*`, `ut_allocator::new_array` / `delete_array`)

The raw-allocation backends of these functions (`detail::Alloc_`,
`detail::Aligned_alloc_`, `detail::construct`, from the `detail/ut0new.h`
header that the repository snapshot does not contain) are abstracted:
the raw allocation outcome is an input (`allocResult`), the element
constructors' behaviour is `throws : Nat → Option ε` (`some e` = the
constructor of that element raises `e`), and raw-memory release is the
event `freeRaw`. Construction and destruction of the element at byte
offset `off` is recorded under its element index `off / sizeof(T)`. -/

/-- Lifecycle events: raw memory obtained, constructor invoked for an
element index, destructor invoked for an element index, raw memory
released. -/
inductive AEv where
  | allocRaw
  | constructCall (idx : Nat)
  | dtorCall (idx : Nat)
  | freeRaw
deriving DecidableEq

/-- Exceptions escaping a lifecycle function: an allocation failure
(`std::bad_alloc` / `std::bad_array_new_length`) or the element
constructor's own exception, re-raised. -/
inductive Ex (ε : Type) where
  | allocFail (err : Err)
  | ctorEx (e : ε)
deriving DecidableEq

/-- Destructor-call indices of a trace, in order. -/
def dtorIndices (evs : List AEv) : List Nat :=
  evs.filterMap fun ev =>
    match ev with
    | AEv.dtorCall i => some i
    | _ => none

/-- Number of raw-memory releases in a trace. -/
def countFree (evs : List AEv) : Nat :=
  evs.countP fun ev =>
    match ev with
    | AEv.freeRaw => true
    | _ => false

/-- The construction loop shared by `ut::new_arr_withkey` (lines
1295–1300) and `ut_allocator::new_array` (lines 833–837): constructs
elements in index order starting at `i`; stops at the first element
whose constructor throws, returning `some (e, i)` with `i` the loop
counter at the moment of the throw (`ut::new_arr_withkey`'s `idx` has
additionally been post-incremented past it, which its catch block undoes
with `idx - 1`). -/
def ctorFold {ε : Type} (throws : Nat → Option ε) (n i : Nat) :
    List AEv × Option (ε × Nat) :=
  if h : i < n then
    match throws i with
    | some e => ([AEv.constructCall i], some (e, i))
    | none =>
        let rest := ctorFold throws n (i + 1)
        (AEv.constructCall i :: rest.1, rest.2)
  else ([], none)
termination_by n - i

/-- The catch-block rollback of `ut::new_arr_withkey` (lines 1301–1307)
and of the `ut::Count` overload (lines 1454–1459):
`for (; offset != 0; offset -= sizeof(T)) destroy element at
offset - sizeof(T)`. -/
def rollbackLoop (T : CType) (offset : Nat) : List AEv :=
  if offset = 0 then []
  else
    AEv.dtorCall ((offset - T.size) / T.size) :: rollbackLoop T (offset - T.size)
termination_by offset
decreasing_by
  have := T.size_pos
  omega

/-- The catch-block rollback of `ut_allocator::new_array` (lines
838–843): `for (j = 0; j < i; j++) { --p; p->~T(); }`, with `p` at
element position `p_elem` when entering the loop. -/
def newArrayRollback : Nat → Nat → List AEv
  | 0, _ => []
  | j + 1, p_elem => AEv.dtorCall (p_elem - 1) :: newArrayRollback j (p_elem - 1)

namespace ut

/-- `ut::new_withkey` (lines 1165–1176): allocates `sizeof(T)` bytes
(`allocResult` is the raw allocation outcome), throws `bad_alloc` on
failure; constructs one `T`; if the constructor throws, frees the raw
memory and re-raises. -/
def new_withkey {ε : Type} (allocResult : Option Nat)
    (ctorThrows : Option ε) : List AEv × Except (Ex ε) Nat :=
  match allocResult with
  | none => ([], .error (.allocFail .badAlloc))
  | some mem =>
      match ctorThrows with
      | some e =>
          ([AEv.allocRaw, AEv.constructCall 0, AEv.freeRaw],
           .error (.ctorEx e))
      | none => ([AEv.allocRaw, AEv.constructCall 0], .ok mem)

/-- `ut::new_arr_withkey` (lines 1288–1312): allocates
`sizeof(T) * n` bytes, throws `bad_alloc` on failure; constructs the
elements in index order; if the constructor of an element throws with the
post-incremented `idx` equal to `i + 1`, destructs elements at offsets
`(idx - 1) * sizeof(T) - sizeof(T)` down to `0`, frees the raw memory and
re-raises. -/
def new_arr_withkey {ε : Type} (T : CType) (allocResult : Option Nat)
    (throws : Nat → Option ε) (n : Nat) : List AEv × Except (Ex ε) Nat :=
  match allocResult with
  | none => ([], .error (.allocFail .badAlloc))
  | some mem =>
      let c := ctorFold throws n 0
      match c.2 with
      | some (e, i) =>
          (AEv.allocRaw :: c.1 ++ rollbackLoop T ((i + 1 - 1) * T.size) ++
             [AEv.freeRaw],
           .error (.ctorEx e))
      | none => (AEv.allocRaw :: c.1, .ok mem)

/-- `ut::delete_` (lines 1223–1228): no-op on null; otherwise destructor
then `ut::free`. Events carry the pointer the call is made through. -/
def delete_ (ptr : Option Nat) : List (Option Nat × Bool) :=
  match ptr with
  | none => []
  | some p => [(some p, true), (some p, false)]

/-- The destruction loop of `ut::delete_arr` (lines 1529–1531):
`for (offset = 0; offset < data_len; offset += sizeof(T))` destruct the
element at `offset`. -/
def deleteArrLoop (T : CType) (data_len offset : Nat) : List AEv :=
  if h : offset < data_len then
    AEv.dtorCall (offset / T.size) :: deleteArrLoop T data_len (offset + T.size)
  else []
termination_by data_len - offset
decreasing_by
  have := T.size_pos
  omega

/-- `ut::delete_arr` (lines 1523–1533): no-op on null; otherwise
destructs the elements at offsets `0, sizeof(T), ...` below `data_len`
in ascending order, then frees the memory. `data_len` stands for
`malloc_impl::datalen(ptr)`. Modelled from the spec: `datalen` lives in
the missing `detail/ut0new.h`; per the spec (§4.4) it is the recorded
user-data byte count of the allocation. -/
def delete_arr (T : CType) (ptr : Option Nat) (data_len : Nat) : List AEv :=
  match ptr with
  | none => []
  | some _ => deleteArrLoop T data_len 0 ++ [AEv.freeRaw]

/-- `ut::aligned_new_withkey` (lines 1743–1750): allocates aligned
storage, throws `bad_alloc` on failure, then constructs one `T` with no
surrounding try/catch: a constructor exception propagates as-is. -/
def aligned_new_withkey {ε : Type} (allocResult : Option Nat)
    (ctorThrows : Option ε) : List AEv × Except (Ex ε) Nat :=
  match allocResult with
  | none => ([], .error (.allocFail .badAlloc))
  | some mem =>
      match ctorThrows with
      | some e => ([AEv.allocRaw, AEv.constructCall 0], .error (.ctorEx e))
      | none => ([AEv.allocRaw, AEv.constructCall 0], .ok mem)

/-- The construction loop of the `ut::aligned_new_arr_withkey` overload
taking a runtime count (lines 1889–1892): placement-new at offsets
`0, sizeof(T), ...` below `sizeof(T) * count`, with no try/catch. -/
def alignedCtorLoop {ε : Type} (T : CType) (throws : Nat → Option ε)
    (total offset : Nat) : List AEv × Option ε :=
  if h : offset < total then
    match throws (offset / T.size) with
    | some e => ([AEv.constructCall (offset / T.size)], some e)
    | none =>
        let rest := alignedCtorLoop T throws total (offset + T.size)
        (AEv.constructCall (offset / T.size) :: rest.1, rest.2)
  else ([], none)
termination_by total - offset
decreasing_by
  have := T.size_pos
  omega

/-- `ut::aligned_new_arr_withkey` (runtime-count overload, lines
1884–1894): allocates `sizeof(T) * count` aligned bytes, throws
`bad_alloc` on failure, then default-constructs the elements in index
order with no surrounding try/catch: an element constructor's exception
propagates with no rollback and no release of the aligned memory. -/
def aligned_new_arr_withkey {ε : Type} (T : CType) (allocResult : Option Nat)
    (throws : Nat → Option ε) (count : Nat) : List AEv × Except (Ex ε) Nat :=
  match allocResult with
  | none => ([], .error (.allocFail .badAlloc))
  | some mem =>
      let c := alignedCtorLoop T throws (T.size * count) 0
      match c.2 with
      | some e => (AEv.allocRaw :: c.1, .error (.ctorEx e))
      | none => (AEv.allocRaw :: c.1, .ok mem)

/-- `ut::aligned_delete` (lines 1794–1798): `ptr->~T(); aligned_free(ptr);`
with no null check — the destructor is invoked through the argument
unconditionally. Events carry the pointer the call is made through
(`true` = destructor invocation, `false` = the free call). -/
def aligned_delete (ptr : Option Nat) : List (Option Nat × Bool) :=
  [(ptr, true), (ptr, false)]

end ut

namespace ut_allocator

/-- `ut_allocator::new_array` (lines 824–850): obtains storage through
`allocate` (outcome `allocResult`; its exceptions propagate), then
default-constructs the elements in index order; if the constructor of
element `i` throws, destructs the `i` already-constructed elements in
descending order, deallocates, and re-raises. -/
def new_array {ε : Type} (allocResult : Except Err Nat)
    (throws : Nat → Option ε) (n_elements : Nat) :
    List AEv × Except (Ex ε) Nat :=
  match allocResult with
  | .error err => ([], .error (.allocFail err))
  | .ok first =>
      let c := ctorFold throws n_elements 0
      match c.2 with
      | some (e, i) =>
          (AEv.allocRaw :: c.1 ++ newArrayRollback i i ++ [AEv.freeRaw],
           .error (.ctorEx e))
      | none => (AEv.allocRaw :: c.1, .ok first)

/-- `ut_allocator::delete_array` (lines 855–870): no-op on null;
otherwise computes the element count with `n_elements_allocated`,
destructs the elements from the highest index down to `0`, then
deallocates. -/
def delete_array (T : CType) (pfxSize : Nat) (store : Store)
    (ptr : Option Nat) : List AEv :=
  match ptr with
  | none => []
  | some p =>
      match n_elements_allocated T pfxSize store p with
      | none => []
      | some n => newArrayRollback n n ++ [AEv.freeRaw]

end ut_allocator

/-! ## Container-adapter equality (lines 981–993) -/

/-- The state of a `ut_allocator<T>` instance: its performance-schema
key. -/
structure ut_allocator_t where
  m_key : Nat

/-- `operator==(const ut_allocator<T>&, const ut_allocator<T>&)`
(lines 984–987): always true. -/
def ut_allocator_beq (lhs rhs : ut_allocator_t) : Bool := true

/-- `operator!=(const ut_allocator<T>&, const ut_allocator<T>&)`
(lines 990–993): `!(lhs == rhs)`. -/
def ut_allocator_bne (lhs rhs : ut_allocator_t) : Bool :=
  !(ut_allocator_beq lhs rhs)

/-- A concrete one-byte element type used by witnesses and
counterexamples. -/
def T1 : CType := ⟨1, Nat.one_pos⟩

/-- The empty header store. -/
def emptyStore : Store := fun _ => none

/-! ## Helper lemmas -/

/-- Bridge from a Bool computation to `decide` of an equivalent Prop. -/
theorem bool_eq_decide_of_iff {b : Bool} {p : Prop} [Decidable p]
    (h : b = true ↔ p) : b = decide p := by
  by_cases hp : p
  · simp [hp, h.mpr hp]
  · have : b ≠ true := fun hb => hp (h.mp hb)
    simp [hp, Bool.eq_false_iff.mpr this]

/-- Character-wise agreement on the first `b.length` positions (in
C-string reading order, NUL past the end) is exactly the list-prefix
relation, provided `b` contains no NUL byte. -/
theorem cAt_agree_iff (b : List Char) :
    ∀ (a : List Char), nullChar ∉ b →
      ((∀ i, i < b.length → cAt a i = cAt b i) ↔ b <+: a) := by
  induction b with
  | nil =>
      intro a _
      simp [List.nil_prefix]
  | cons c bs ih =>
      intro a hnull
      have hc : c ≠ nullChar := fun h => hnull (h ▸ List.mem_cons_self c bs)
      have hbs : nullChar ∉ bs := fun h => hnull (List.mem_cons_of_mem _ h)
      cases a with
      | nil =>
          constructor
          · intro h
            have h0 := h 0 (Nat.succ_pos _)
            simp [cAt] at h0
            exact absurd h0.symm hc
          · intro h
            have := List.prefix_nil.mp h
            simp at this
      | cons a0 as =>
          rw [List.cons_prefix_cons, ← ih as hbs]
          constructor
          · intro h
            refine ⟨?_, ?_⟩
            · have h0 := h 0 (Nat.succ_pos _)
              simpa [cAt] using h0.symm
            · intro i hi
              have := h (i + 1) (Nat.succ_lt_succ hi)
              simpa [cAt] using this
          · rintro ⟨h0, h1⟩ i hi
            cases i with
            | zero => simpa [cAt] using h0.symm
            | succ j =>
                have := h1 j (Nat.lt_of_succ_lt_succ hi)
                simpa [cAt] using this

/-- `ut_string_begins_with a b |b|` decides the prefix relation
`b <+: a` for NUL-free `b`. -/
theorem ut_string_begins_with_eq_decide (a b : List Char)
    (hb : nullChar ∉ b) :
    ut_string_begins_with a b b.length = decide (b <+: a) := by
  apply bool_eq_decide_of_iff
  unfold ut_string_begins_with
  rw [List.all_eq_true]
  simp only [List.mem_range, beq_iff_eq]
  exact cAt_agree_iff b a hb

/-- `scanTable` only looks at the predicate's values on the table. -/
theorem scanTable_congr (p q : List Char → Bool) (h : ∀ x, p x = q x) :
    ∀ (l : List (List Char)) (i : Nat), scanTable p l i = scanTable q l i := by
  intro l
  induction l with
  | nil => intro i; rfl
  | cons nm rest ih => intro i; simp [scanTable, h nm, ih]

/-! ## C1 — key resolution by call site -/

/-- C1, counterexample: the claim says the lookup returns the key of the
first table entry whose name is a prefix of the identifier, so that
`"buf0buf_extra"` resolves to the key of the `"buf0buf"` entry (table
index 10). The code resolves `"buf0buf_extra"` to the not-instrumented
sentinel `-1`; the claimed rule itself would give table index 8 (entry
`"buf"`), not 10, even for the exact identifier `"buf0buf"`. -/
theorem C1_key_resolution_counterexample :
    auto_event_names.findIdx? (· == "buf0buf".toList) = some 10 ∧
    ut_new_get_key_by_base_file ("buf0buf_extra".toList) 13 = -1 ∧
    resolve_by_callsite_spec ("buf0buf_extra".toList) = 8 ∧
    resolve_by_callsite_spec ("buf0buf".toList) = 8 ∧
    ut_new_get_key_by_base_file ("buf0buf".toList) 7 = 10 ∧
    (-1 : Int) ≠ 10 ∧ (8 : Int) ≠ 10 := by
  refine ⟨by decide, by decide, by decide, by decide, by decide, by decide,
    by decide⟩

/-- C1, amended: the lookup scans the fixed alphabetical table and
returns the key (table index; `-1` is the not-instrumented sentinel) of
the first table entry **of which the identifier is a prefix** — not the
first entry whose name is a prefix of the identifier. Exact matches like
`"buf0buf"` resolve to their own entry; identifiers extending an entry
name, such as `"buf0buf_extra"`, and identifiers matching no entry, such
as `"zzz_unregistered"`, resolve to the sentinel. -/
theorem C1_key_resolution_amended (id : List Char) (hid : nullChar ∉ id) :
    ut_new_get_key_by_base_file id id.length = resolve_by_callsite_amended id ∧
    ut_new_get_key_by_file ("buf0buf.cc".toList) = 10 ∧
    ut_new_get_key_by_file ("buf0buf_extra.cc".toList) = -1 ∧
    ut_new_get_key_by_file ("zzz_unregistered.cc".toList) = -1 := by
  refine ⟨?_, by decide, by decide, by decide⟩
  unfold ut_new_get_key_by_base_file resolve_by_callsite_amended
  exact scanTable_congr _ _
    (fun nm => ut_string_begins_with_eq_decide nm id hid) _ _

/-- C1 witness: the amended theorem applied to the identifier
`"buf0buf"`. -/
theorem C1_key_resolution_amended_witness :
    ut_new_get_key_by_base_file ("buf0buf".toList) ("buf0buf".toList).length =
      resolve_by_callsite_amended ("buf0buf".toList) :=
  (C1_key_resolution_amended ("buf0buf".toList) (by decide)).1

/-! ## C9 — adapter equality -/

/-- C9: for every pair of `ut_allocator` instances of the same element
type, whatever keys they hold, `operator==` returns true and
`operator!=` returns false. -/
theorem C9_adapter_equality (k1 k2 : Nat) :
    ut_allocator_beq ⟨k1⟩ ⟨k2⟩ = true ∧ ut_allocator_bne ⟨k1⟩ ⟨k2⟩ = false := by
  constructor
  · rfl
  · rfl

/-! ## C10 — null handling of the destroy operations -/

/-- C10: `ut::delete_` and `ut::delete_arr` are no-ops on a null
pointer, while `ut::aligned_delete` performs no null check: it invokes
the destructor (and then `aligned_free`) through its argument
unconditionally, null included. -/
theorem C10_null_handling (T : CType) (data_len : Nat) :
    ut.delete_ none = [] ∧
    ut.delete_arr T none data_len = [] ∧
    ut.aligned_delete none = [(none, true), (none, false)] ∧
    (ut.aligned_delete none).length = 2 := by
  refine ⟨rfl, rfl, rfl, rfl⟩

/-! ## Retry-loop lemmas (for C5 and C7) -/

/-- The retry loop makes at most `maxRetries - retries + 1` further
attempts. -/
theorem retryFrom_attempts_le (os : Nat → Option Nat)
    (maxRetries retries : Nat) :
    attemptCount (retryFrom os maxRetries retries).2 ≤
      maxRetries - retries + 1 := by
  unfold retryFrom
  dsimp only
  split
  · simp [attemptCount]
  · rename_i h
    push_neg at h
    have ih := retryFrom_attempts_le os maxRetries (retries + 1)
    simp [attemptCount, List.countP_cons] at ih ⊢
    omega
termination_by maxRetries - retries

/-- Each loop iteration contributes one attempt; a sleep happens exactly
between two consecutive attempts, so there is one sleep less than there
are attempts. -/
theorem retryFrom_sleep_count (os : Nat → Option Nat)
    (maxRetries retries : Nat) :
    attemptCount (retryFrom os maxRetries retries).2 =
      sleepCount (retryFrom os maxRetries retries).2 + 1 := by
  unfold retryFrom
  dsimp only
  split
  · simp [attemptCount, sleepCount]
  · rename_i h
    push_neg at h
    have ih := retryFrom_sleep_count os maxRetries (retries + 1)
    simp [attemptCount, sleepCount, List.countP_cons] at ih ⊢
    omega
termination_by maxRetries - retries

/-- Every sleep in the retry loop lasts the fixed one second. -/
theorem retryFrom_sleep_one (os : Nat → Option Nat)
    (maxRetries retries : Nat) :
    ∀ s, REv.sleepSec s ∈ (retryFrom os maxRetries retries).2 → s = 1 := by
  unfold retryFrom
  dsimp only
  split
  · intro s hs
    simp at hs
  · rename_i h
    push_neg at h
    intro s hs
    have ih := retryFrom_sleep_one os maxRetries (retries + 1)
    simp only [List.mem_cons] at hs
    rcases hs with h1 | h2 | h3
    · cases h1
    · cases h2; rfl
    · exact ih s h3
termination_by maxRetries - retries

/-- When the OS allocator fails on every attempt the loop gives up with
null after exactly `maxRetries - retries + 1` attempts. -/
theorem retryFrom_all_fail (os : Nat → Option Nat)
    (hos : ∀ i, os i = none) (maxRetries retries : Nat)
    (hr : retries ≤ maxRetries) :
    (retryFrom os maxRetries retries).1 = none ∧
    attemptCount (retryFrom os maxRetries retries).2 =
      maxRetries - retries + 1 := by
  unfold retryFrom
  dsimp only
  split
  · rename_i h
    rcases h with h | h
    · simp [hos retries] at h
    · have heq : retries = maxRetries := Nat.le_antisymm hr h
      simp [hos, attemptCount, heq]
  · rename_i h
    push_neg at h
    have ih := retryFrom_all_fail os hos maxRetries (retries + 1) (by omega)
    refine ⟨ih.1, ?_⟩
    have ih2 := ih.2
    simp [attemptCount, List.countP_cons] at ih2 ⊢
    omega
termination_by maxRetries - retries

/-- A successful retry-loop result is a value the OS allocator actually
returned on some attempt. -/
theorem retryFrom_some (os : Nat → Option Nat) (maxRetries retries b : Nat)
    (hb : (retryFrom os maxRetries retries).1 = some b) :
    ∃ i, os i = some b := by
  rw [retryFrom] at hb
  revert hb
  dsimp only
  split
  · intro hb
    exact ⟨retries, hb⟩
  · intro hb
    exact retryFrom_some os maxRetries (retries + 1) b hb
termination_by maxRetries - retries

/-! ## Construction/rollback-loop lemmas (for C2, C3, C4) -/

/-- Construction-loop behaviour when the constructor of element `k`
(the first throwing one) throws `e`: starting from any `i ≤ k`, elements
`i, …, k` have their constructors invoked, in index order, and the loop
reports `(e, k)`. -/
theorem ctorFold_spec {ε : Type} (throws : Nat → Option ε) (n k : Nat) (e : ε)
    (hk : throws k = some e) (hfirst : ∀ j, j < k → throws j = none)
    (hkn : k < n) (i : Nat) (hi : i ≤ k) :
    ctorFold throws n i =
      ((List.range' i (k + 1 - i)).map AEv.constructCall, some (e, k)) := by
  unfold ctorFold
  dsimp only
  rcases Nat.lt_or_ge i k with hik | hik
  · have hlt : i < n := Nat.lt_trans hik hkn
    rw [dif_pos hlt, hfirst i hik]
    have ih := ctorFold_spec throws n k e hk hfirst hkn (i + 1) (by omega)
    rw [ih]
    have h1 : k + 1 - i = (k - i) + 1 := by omega
    have h2 : k + 1 - (i + 1) = k - i := by omega
    rw [h1, List.range'_succ, h2]
    simp
  · have hik' : i = k := Nat.le_antisymm hi hik
    rw [hik']
    rw [dif_pos hkn, hk]
    have h1 : k + 1 - k = 1 := by omega
    rw [h1]
    simp [List.range']
termination_by k - i

/-- The `ut::new_arr_withkey` catch-block rollback, entered at offset
`k * sizeof(T)`, destructs elements `k-1, …, 0` in that order. -/
theorem rollbackLoop_spec (T : CType) :
    ∀ k, rollbackLoop T (k * T.size) =
      ((List.range k).reverse).map AEv.dtorCall := by
  intro k
  induction k with
  | zero => rw [rollbackLoop]; simp
  | succ k ih =>
      rw [rollbackLoop]
      have hs := T.size_pos
      have hne : ¬ (k + 1) * T.size = 0 := by positivity
      rw [if_neg hne]
      have h1 : (k + 1) * T.size - T.size = k * T.size := by
        simp [Nat.succ_mul]
      rw [h1, Nat.mul_div_cancel _ hs, ih, List.range_succ]
      simp

/-- The `ut_allocator::new_array` catch-block rollback, entered with `i`
constructed elements and the cursor at element `i`, destructs elements
`i-1, …, 0` in that order. -/
theorem newArrayRollback_spec :
    ∀ k, newArrayRollback k k = ((List.range k).reverse).map AEv.dtorCall := by
  intro k
  induction k with
  | zero => rfl
  | succ k ih =>
      show AEv.dtorCall (k + 1 - 1) :: newArrayRollback k (k + 1 - 1) = _
      simp only [Nat.add_sub_cancel]
      rw [ih, List.range_succ]
      simp

/-- The `ut::aligned_new_arr_withkey` construction loop when element `k`
(the first throwing one) throws: elements `i, …, k` are constructed in
index order and the exception is reported, with no other event. -/
theorem alignedCtorLoop_spec {ε : Type} (T : CType) (throws : Nat → Option ε)
    (count k : Nat) (e : ε) (hk : throws k = some e)
    (hfirst : ∀ j, j < k → throws j = none) (hkc : k < count)
    (i : Nat) (hi : i ≤ k) :
    ut.alignedCtorLoop T throws (T.size * count) (i * T.size) =
      ((List.range' i (k + 1 - i)).map AEv.constructCall, some e) := by
  have hs := T.size_pos
  unfold ut.alignedCtorLoop
  dsimp only
  have hdiv : i * T.size / T.size = i := Nat.mul_div_cancel _ hs
  rcases Nat.lt_or_ge i k with hik | hik
  · have hlt : i * T.size < T.size * count := by
      rw [Nat.mul_comm T.size count]
      exact Nat.mul_lt_mul_of_lt_of_le (Nat.lt_trans hik hkc) (Nat.le_refl _) hs
    rw [dif_pos hlt, hdiv, hfirst i hik]
    have ih := alignedCtorLoop_spec T throws count k e hk hfirst hkc (i + 1)
      (by omega)
    rw [show i * T.size + T.size = (i + 1) * T.size from
      (Nat.succ_mul i T.size).symm]
    rw [ih]
    have h1 : k + 1 - i = (k - i) + 1 := by omega
    have h2 : k + 1 - (i + 1) = k - i := by omega
    rw [h1, List.range'_succ, h2]
    simp
  · have hik' : i = k := Nat.le_antisymm hi hik
    rw [hik']
    have hlt : k * T.size < T.size * count := by
      rw [Nat.mul_comm T.size count]
      exact Nat.mul_lt_mul_of_lt_of_le hkc (Nat.le_refl _) hs
    rw [dif_pos hlt, Nat.mul_div_cancel _ hs, hk]
    have h1 : k + 1 - k = 1 := by omega
    rw [h1]
    simp [List.range']
termination_by k - i

/-- The `ut::delete_arr` destruction loop over `n` elements, entered at
element `i`, destructs elements `i, …, n-1` in ascending order. -/
theorem deleteArrLoop_spec (T : CType) (n i : Nat) (hi : i ≤ n) :
    ut.deleteArrLoop T (n * T.size) (i * T.size) =
      (List.range' i (n - i)).map AEv.dtorCall := by
  have hs := T.size_pos
  unfold ut.deleteArrLoop
  have hdiv : i * T.size / T.size = i := Nat.mul_div_cancel _ hs
  rcases Nat.lt_or_ge i n with hik | hik
  · have hlt : i * T.size < n * T.size :=
      Nat.mul_lt_mul_of_lt_of_le hik (Nat.le_refl _) hs
    rw [dif_pos hlt, hdiv]
    have ih := deleteArrLoop_spec T n (i + 1) (by omega)
    rw [show i * T.size + T.size = (i + 1) * T.size from
      (Nat.succ_mul i T.size).symm]
    rw [ih]
    have h1 : n - i = (n - (i + 1)) + 1 := by omega
    rw [h1, List.range'_succ]
    simp
  · have hik' : i = n := Nat.le_antisymm hi hik
    rw [hik']
    have hlt : ¬ n * T.size < n * T.size := Nat.lt_irrefl _
    rw [dif_neg hlt]
    simp [Nat.sub_self]
termination_by n - i

/-- Traces made only of constructor invocations contain no destructor
call. -/
theorem dtorIndices_constructs (l : List Nat) :
    dtorIndices (l.map AEv.constructCall) = [] := by
  induction l with
  | nil => rfl
  | cons a l ih => simpa [dtorIndices, List.filterMap_cons] using ih

/-- `dtorIndices` recovers the index list of a pure destructor trace. -/
theorem dtorIndices_dtors (l : List Nat) :
    dtorIndices (l.map AEv.dtorCall) = l := by
  induction l with
  | nil => rfl
  | cons a l ih => simpa [dtorIndices, List.filterMap_cons] using ih

/-- Traces made only of constructor invocations release nothing. -/
theorem countFree_constructs (l : List Nat) :
    countFree (l.map AEv.constructCall) = 0 := by
  induction l with
  | nil => rfl
  | cons a l ih => simpa [countFree, List.countP_cons] using ih

/-- Pure destructor traces release nothing. -/
theorem countFree_dtors (l : List Nat) :
    countFree (l.map AEv.dtorCall) = 0 := by
  induction l with
  | nil => rfl
  | cons a l ih => simpa [countFree, List.countP_cons] using ih

/-! ## Trace-observation lemmas -/

/-- A leading raw-allocation event has no destructor index. -/
theorem dtorIndices_alloc_cons (l : List AEv) :
    dtorIndices (AEv.allocRaw :: l) = dtorIndices l := by
  simp [dtorIndices, List.filterMap_cons]

/-- `dtorIndices` distributes over concatenation. -/
theorem dtorIndices_append (l1 l2 : List AEv) :
    dtorIndices (l1 ++ l2) = dtorIndices l1 ++ dtorIndices l2 := by
  simp [dtorIndices, List.filterMap_append]

/-- A lone raw-memory release has no destructor index. -/
theorem dtorIndices_free : dtorIndices [AEv.freeRaw] = [] := rfl

/-- A leading raw-allocation event is not a release. -/
theorem countFree_alloc_cons (l : List AEv) :
    countFree (AEv.allocRaw :: l) = countFree l := by
  simp [countFree, List.countP_cons]

/-- `countFree` distributes over concatenation. -/
theorem countFree_append (l1 l2 : List AEv) :
    countFree (l1 ++ l2) = countFree l1 + countFree l2 := by
  simp [countFree, List.countP_append]

/-- A lone raw-memory release counts once. -/
theorem countFree_free : countFree [AEv.freeRaw] = 1 := rfl

/-- Reversed pure destructor traces: indices are the reversed list. -/
theorem dtorIndices_dtors_rev (l : List Nat) :
    dtorIndices ((l.map AEv.dtorCall).reverse) = l.reverse := by
  rw [← List.map_reverse]
  exact dtorIndices_dtors _

/-- Reversed pure destructor traces release nothing. -/
theorem countFree_dtors_rev (l : List Nat) :
    countFree ((l.map AEv.dtorCall).reverse) = 0 := by
  rw [← List.map_reverse]
  exact countFree_dtors _

/-! ## C2 — exception safety of the aligned construction variants -/

/-- C2, counterexample: with raw aligned memory obtained at `64` and a
single throwing constructor, `ut::aligned_new_withkey` propagates the
exception with the raw memory never released; likewise
`ut::aligned_new_arr_withkey` with the second element's constructor
throwing leaves element 0 undestructed and the memory unreleased. The
claim requires a `freeRaw` (and the element-0 rollback) before the
exception propagates. -/
theorem C2_aligned_exception_counterexample :
    ut.aligned_new_withkey (ε := Unit) (some 64) (some ()) =
      ([AEv.allocRaw, AEv.constructCall 0], .error (.ctorEx ())) ∧
    ut.aligned_new_arr_withkey (ε := Unit) T1 (some 64)
        (fun i => if i = 1 then some () else none) 2 =
      ([AEv.allocRaw, AEv.constructCall 0, AEv.constructCall 1],
       .error (.ctorEx ())) ∧
    countFree [AEv.allocRaw, AEv.constructCall 0] = 0 ∧
    countFree [AEv.allocRaw, AEv.constructCall 0, AEv.constructCall 1] = 0 ∧
    dtorIndices [AEv.allocRaw, AEv.constructCall 0, AEv.constructCall 1] =
      [] := by
  refine ⟨rfl, ?_, rfl, rfl, rfl⟩
  have h := alignedCtorLoop_spec (ε := Unit) T1
    (fun i => if i = 1 then some () else none) 2 1 ()
    (by simp)
    (by intro j hj; interval_cases j; rfl)
    (by omega) 0 (by omega)
  unfold ut.aligned_new_arr_withkey
  rw [show (0 : Nat) * T1.size = 0 by simp] at h
  rw [h]
  simp [List.range']

/-- C2, amended: `ut::aligned_new_withkey` and
`ut::aligned_new_arr_withkey` construct with **no** surrounding
try/catch, unlike the unaligned §4.3/§4.4 variants: when an element
constructor throws, the exception propagates and the raw aligned memory
is **not** released, and no previously constructed element is
destructed. (`ut::new_withkey`, by contrast, frees the raw memory on the
same path.) -/
theorem C2_aligned_exception_amended {ε : Type} (T : CType) (mem : Nat)
    (e : ε) (throws : Nat → Option ε) (k count : Nat)
    (hk : throws k = some e) (hfirst : ∀ j, j < k → throws j = none)
    (hkc : k < count) :
    ut.aligned_new_withkey (some mem) (some e) =
      ([AEv.allocRaw, AEv.constructCall 0], .error (.ctorEx e)) ∧
    ut.aligned_new_arr_withkey T (some mem) throws count =
      (AEv.allocRaw :: (List.range (k + 1)).map AEv.constructCall,
       .error (.ctorEx e)) ∧
    countFree (AEv.allocRaw :: (List.range (k + 1)).map AEv.constructCall)
      = 0 ∧
    dtorIndices (AEv.allocRaw :: (List.range (k + 1)).map AEv.constructCall)
      = [] ∧
    ut.new_withkey (some mem) (some e) =
      ([AEv.allocRaw, AEv.constructCall 0, AEv.freeRaw],
       .error (.ctorEx e)) := by
  refine ⟨rfl, ?_, ?_, ?_, rfl⟩
  · have h := alignedCtorLoop_spec T throws count k e hk hfirst hkc 0
      (Nat.zero_le _)
    unfold ut.aligned_new_arr_withkey
    rw [show (0 : Nat) * T.size = 0 by simp] at h
    rw [h]
    simp [List.range_eq_range']
  · rw [countFree_alloc_cons, countFree_constructs]
  · rw [dtorIndices_alloc_cons, dtorIndices_constructs]

/-- C2 witness: the amended theorem at `T1`, memory at `64`, two
elements with the second constructor throwing. -/
theorem C2_aligned_exception_amended_witness :
    ut.aligned_new_withkey (some 64) (some ()) =
      ([AEv.allocRaw, AEv.constructCall 0], .error (.ctorEx ())) ∧
    ut.aligned_new_arr_withkey T1 (some 64)
        (fun i => if i = 1 then some () else none) 2 =
      (AEv.allocRaw :: (List.range (1 + 1)).map AEv.constructCall,
       .error (.ctorEx ())) ∧
    countFree (AEv.allocRaw :: (List.range (1 + 1)).map AEv.constructCall)
      = 0 ∧
    dtorIndices (AEv.allocRaw :: (List.range (1 + 1)).map AEv.constructCall)
      = [] ∧
    ut.new_withkey (some 64) (some ()) =
      ([AEv.allocRaw, AEv.constructCall 0, AEv.freeRaw],
       .error (.ctorEx ())) :=
  C2_aligned_exception_amended T1 64 ()
    (fun i => if i = 1 then some () else none) 1 2 (by simp)
    (by intro j hj; interval_cases j; rfl)
    (by omega)

/-! ## C3 — rollback of partially constructed arrays -/

/-- C3: in both `ut::new_arr_withkey` and `ut_allocator::new_array`,
when the constructor of the `k`-th element (`0`-indexed, the first to
throw) throws `e` with `k < n`, exactly `k` destructor calls are made,
for elements `k-1` down to `0` in descending index order, exactly one
raw-memory release follows, and the original exception `e` is re-raised
unchanged. -/
theorem C3_array_rollback {ε : Type} (T : CType) (mem : Nat) (e : ε)
    (throws : Nat → Option ε) (k n first : Nat)
    (hk : throws k = some e) (hfirst : ∀ j, j < k → throws j = none)
    (hkn : k < n) :
    (ut.new_arr_withkey T (some mem) throws n).2 = .error (.ctorEx e) ∧
    dtorIndices (ut.new_arr_withkey T (some mem) throws n).1 =
      (List.range k).reverse ∧
    (dtorIndices (ut.new_arr_withkey T (some mem) throws n).1).length = k ∧
    countFree (ut.new_arr_withkey T (some mem) throws n).1 = 1 ∧
    (ut_allocator.new_array (.ok first) throws n).2 = .error (.ctorEx e) ∧
    dtorIndices (ut_allocator.new_array (.ok first) throws n).1 =
      (List.range k).reverse ∧
    (dtorIndices (ut_allocator.new_array (.ok first) throws n).1).length
      = k ∧
    countFree (ut_allocator.new_array (.ok first) throws n).1 = 1 := by
  have hc := ctorFold_spec throws n k e hk hfirst hkn 0 (Nat.zero_le _)
  rw [show List.range' 0 (k + 1 - 0) = List.range (k + 1) by
    simp [List.range_eq_range']] at hc
  have e1 : ut.new_arr_withkey T (some mem) throws n =
      (AEv.allocRaw :: ((List.range (k + 1)).map AEv.constructCall ++
        (((List.range k).reverse).map AEv.dtorCall ++ [AEv.freeRaw])),
       .error (.ctorEx e)) := by
    unfold ut.new_arr_withkey
    dsimp only
    rw [hc]
    dsimp only
    rw [show k + 1 - 1 = k by omega, rollbackLoop_spec T k]
    simp
  have e2 : ut_allocator.new_array (.ok first) throws n =
      (AEv.allocRaw :: ((List.range (k + 1)).map AEv.constructCall ++
        (((List.range k).reverse).map AEv.dtorCall ++ [AEv.freeRaw])),
       .error (.ctorEx e)) := by
    unfold ut_allocator.new_array
    dsimp only
    rw [hc]
    dsimp only
    rw [newArrayRollback_spec k]
    simp
  rw [e1, e2]
  simp [dtorIndices_alloc_cons, dtorIndices_append,
    dtorIndices_constructs, dtorIndices_dtors, dtorIndices_free,
    countFree_alloc_cons, countFree_append, countFree_constructs,
    countFree_dtors, countFree_free, dtorIndices_dtors_rev,
    countFree_dtors_rev]

/-- C3 witness: the rollback theorem at `T1`, three elements, the
constructor of element 1 throwing: exactly one destructor call, for
element 0. -/
theorem C3_array_rollback_witness :
    (ut.new_arr_withkey T1 (some 64)
        (fun i => if i = 1 then some () else none) 3).2 =
      .error (.ctorEx ()) ∧
    dtorIndices (ut.new_arr_withkey T1 (some 64)
        (fun i => if i = 1 then some () else none) 3).1 =
      (List.range 1).reverse ∧
    (dtorIndices (ut.new_arr_withkey T1 (some 64)
        (fun i => if i = 1 then some () else none) 3).1).length = 1 ∧
    countFree (ut.new_arr_withkey T1 (some 64)
        (fun i => if i = 1 then some () else none) 3).1 = 1 ∧
    (ut_allocator.new_array (.ok 64)
        (fun i => if i = 1 then some () else none) 3).2 =
      .error (.ctorEx ()) ∧
    dtorIndices (ut_allocator.new_array (.ok 64)
        (fun i => if i = 1 then some () else none) 3).1 =
      (List.range 1).reverse ∧
    (dtorIndices (ut_allocator.new_array (.ok 64)
        (fun i => if i = 1 then some () else none) 3).1).length = 1 ∧
    countFree (ut_allocator.new_array (.ok 64)
        (fun i => if i = 1 then some () else none) 3).1 = 1 :=
  C3_array_rollback T1 64 () (fun i => if i = 1 then some () else none) 1 3 64
    (by simp)
    (by intro j hj; interval_cases j; rfl)
    (by omega)

/-! ## C4 — array destruction -/

/-- C4, counterexample: `ut::delete_arr` over a two-element array (unit
element size, recorded data length 2) destructs element 0 first, then
element 1 — ascending index order, not the claimed reverse order
`[1, 0]`. -/
theorem C4_array_destroy_counterexample :
    ut.delete_arr T1 (some 4096) 2 =
      [AEv.dtorCall 0, AEv.dtorCall 1, AEv.freeRaw] ∧
    dtorIndices (ut.delete_arr T1 (some 4096) 2) = [0, 1] ∧
    [0, 1] ≠ (List.range 2).reverse := by
  have h := deleteArrLoop_spec T1 2 0 (by omega)
  rw [show (2 : Nat) * T1.size = 2 by rfl,
    show (0 : Nat) * T1.size = 0 by rfl] at h
  have harr : ut.delete_arr T1 (some 4096) 2 =
      [AEv.dtorCall 0, AEv.dtorCall 1, AEv.freeRaw] := by
    unfold ut.delete_arr
    dsimp only
    rw [h]
    simp [List.range']
  refine ⟨harr, ?_, by decide⟩
  rw [harr]
  rfl

/-- C4, amended: both destroy operations recover the element count from
the recorded allocation size (`delete_array` via
`(m_size - sizeof(ut_new_pfx_t)) / sizeof(T)`, `delete_arr` via the
recorded user-data length), destruct every element exactly once and then
release the memory — but the destruction order differs:
`ut_allocator::delete_array` destructs in reverse index order (highest
first) while `ut::delete_arr` destructs in ascending index order. -/
theorem C4_array_destroy_amended (T : CType) (pfxSize : Nat) (store : Store)
    (p n okey : Nat)
    (hstore : store (p - pfxSize) = some ⟨okey, n * T.size + pfxSize⟩) :
    ut_allocator.n_elements_allocated T pfxSize store p = some n ∧
    ut_allocator.delete_array T pfxSize store (some p) =
      ((List.range n).reverse).map AEv.dtorCall ++ [AEv.freeRaw] ∧
    dtorIndices (ut_allocator.delete_array T pfxSize store (some p)) =
      (List.range n).reverse ∧
    ut.delete_arr T (some p) (n * T.size) =
      (List.range n).map AEv.dtorCall ++ [AEv.freeRaw] ∧
    dtorIndices (ut.delete_arr T (some p) (n * T.size)) = List.range n := by
  have hs := T.size_pos
  have hcount : ut_allocator.n_elements_allocated T pfxSize store p
      = some n := by
    unfold ut_allocator.n_elements_allocated
    rw [hstore]
    simp [Nat.add_sub_cancel, Nat.mul_div_cancel _ hs]
  have hda : ut_allocator.delete_array T pfxSize store (some p) =
      ((List.range n).reverse).map AEv.dtorCall ++ [AEv.freeRaw] := by
    unfold ut_allocator.delete_array
    dsimp only
    rw [hcount]
    dsimp only
    rw [newArrayRollback_spec n]
  have hloop := deleteArrLoop_spec T n 0 (Nat.zero_le _)
  rw [show (0 : Nat) * T.size = 0 by simp] at hloop
  have hdl : ut.delete_arr T (some p) (n * T.size) =
      (List.range n).map AEv.dtorCall ++ [AEv.freeRaw] := by
    unfold ut.delete_arr
    dsimp only
    rw [hloop]
    simp [List.range_eq_range']
  refine ⟨hcount, hda, ?_, hdl, ?_⟩
  · rw [hda]
    simp [dtorIndices_append, dtorIndices_free, dtorIndices_dtors_rev]
  · rw [hdl]
    simp [dtorIndices_append, dtorIndices_free, dtorIndices_dtors]

/-- C4 witness: the amended theorem for a three-element array of unit
element size with the header written at address 4096 under a header size
of 32 bytes. -/
theorem C4_array_destroy_amended_witness :
    ut_allocator.n_elements_allocated T1 32
      (storeWrite emptyStore 4096 ⟨9, 3 * T1.size + 32⟩) 4128 = some 3 ∧
    ut_allocator.delete_array T1 32
        (storeWrite emptyStore 4096 ⟨9, 3 * T1.size + 32⟩) (some 4128) =
      ((List.range 3).reverse).map AEv.dtorCall ++ [AEv.freeRaw] ∧
    dtorIndices (ut_allocator.delete_array T1 32
        (storeWrite emptyStore 4096 ⟨9, 3 * T1.size + 32⟩) (some 4128)) =
      (List.range 3).reverse ∧
    ut.delete_arr T1 (some 4128) (3 * T1.size) =
      (List.range 3).map AEv.dtorCall ++ [AEv.freeRaw] ∧
    dtorIndices (ut.delete_arr T1 (some 4128) (3 * T1.size)) =
      List.range 3 :=
  C4_array_destroy_amended T1 32
    (storeWrite emptyStore 4096 ⟨9, 3 * T1.size + 32⟩) 4128 3 9
    (by simp [storeWrite])

/-! ## Further retry-loop lemmas -/

/-- When the OS allocator always fails, the loop result is null from any
starting attempt. -/
theorem retryFrom_none (os : Nat → Option Nat) (hos : ∀ i, os i = none)
    (maxRetries retries : Nat) :
    (retryFrom os maxRetries retries).1 = none := by
  unfold retryFrom
  dsimp only
  split
  · simp [hos]
  · exact retryFrom_none os hos maxRetries (retries + 1)
termination_by maxRetries - retries

/-- The retry loop performs no accounting calls. -/
theorem retryFrom_no_psi (os : Nat → Option Nat) (maxRetries retries : Nat) :
    psiAllocCount (retryFrom os maxRetries retries).2 = 0 ∧
    psiFreeCount (retryFrom os maxRetries retries).2 = 0 := by
  unfold retryFrom
  dsimp only
  split
  · simp [psiAllocCount, psiFreeCount]
  · have ih := retryFrom_no_psi os maxRetries (retries + 1)
    simp [psiAllocCount, psiFreeCount, List.countP_cons] at ih ⊢
    exact ih
termination_by maxRetries - retries

/-! ## C5 — container-adapter `allocate` never returns null -/

/-- C5: `ut_allocator::allocate(n)` either throws or returns a non-null
pointer: requests beyond `max_size()` — exactly those whose total byte
count `n * sizeof(T) + sizeof(ut_new_pfx_t)` would overflow `size_t` —
throw `bad_array_new_length`; exhausted OS allocation throws
`bad_alloc`; and a returned pointer comes from a successful (non-null)
OS allocation, offset past the header, hence is never null. -/
theorem C5_allocate_never_null (T : CType) (pfxSize : Nat)
    (psi : Nat → Nat → Nat) (m_key : Nat) (os : Nat → Option Nat)
    (maxRetries : Nat) (store : Store) (n key : Nat)
    (hpfx : pfxSize ≤ SIZE_MAX)
    (hos : ∀ i b, os i = some b → 0 < b) :
    (max_size T.size pfxSize < n ↔ SIZE_MAX < n * T.size + pfxSize) ∧
    (max_size T.size pfxSize < n →
      (ut_allocator.allocate T pfxSize psi m_key os maxRetries store n
          key).1 = .error .badArrayNewLength) ∧
    ((∀ i, os i = none) → n ≤ max_size T.size pfxSize →
      (ut_allocator.allocate T pfxSize psi m_key os maxRetries store n
          key).1 = .error .badAlloc) ∧
    (∀ q st,
      (ut_allocator.allocate T pfxSize psi m_key os maxRetries store n
          key).1 = .ok (q, st) → 0 < q) := by
  have hs := T.size_pos
  refine ⟨?_, ?_, ?_, ?_⟩
  · unfold max_size
    rw [Nat.div_lt_iff_lt_mul hs]
    omega
  · intro h
    simp [ut_allocator.allocate, h]
  · intro hfail hle
    have hnone := retryFrom_none os hfail maxRetries 1
    unfold ut_allocator.allocate
    dsimp only
    rw [if_neg (by omega : ¬ max_size T.size pfxSize < n), hnone]
  · intro q st h
    unfold ut_allocator.allocate at h
    dsimp only at h
    by_cases hn : max_size T.size pfxSize < n
    · rw [if_pos hn] at h
      simp at h
    · rw [if_neg hn] at h
      rcases hr : (retryFrom os maxRetries 1).1 with _ | base
      · rw [hr] at h
        simp at h
      · rw [hr] at h
        dsimp only at h
        simp only [Except.ok.injEq, Prod.mk.injEq] at h
        obtain ⟨i, hi⟩ := retryFrom_some os maxRetries 1 base hr
        have hb := hos i base hi
        omega

/-- C5 witness: the theorem at a one-byte element type, 32-byte header,
an OS allocator that always succeeds at 4096, and a 10-element
request. -/
theorem C5_allocate_never_null_witness :
    (max_size T1.size 32 < 10 ↔ SIZE_MAX < 10 * T1.size + 32) ∧
    (max_size T1.size 32 < 10 →
      (ut_allocator.allocate T1 32 (fun k _ => k) 0 (fun _ => some 4096) 60
          emptyStore 10 7).1 = .error .badArrayNewLength) ∧
    ((∀ i : Nat, (fun _ : Nat => some (4096 : Nat)) i = none) →
      10 ≤ max_size T1.size 32 →
      (ut_allocator.allocate T1 32 (fun k _ => k) 0 (fun _ => some 4096) 60
          emptyStore 10 7).1 = .error .badAlloc) ∧
    (∀ q st,
      (ut_allocator.allocate T1 32 (fun k _ => k) 0 (fun _ => some 4096) 60
          emptyStore 10 7).1 = .ok (q, st) → 0 < q) :=
  C5_allocate_never_null T1 32 (fun k _ => k) 0 (fun _ => some 4096) 60
    emptyStore 10 7 (by decide)
    (by intro i b h; injection h with h; omega)

/-! ## C7 — bounded retry with fixed backoff -/

/-- C7: the allocation retry loop attempts the OS allocation at most
`alloc_max_retries` times (here `maxRetries ≥ 1`), sleeps exactly once —
for the fixed one second — between consecutive failed attempts, and when
the OS allocator keeps failing it stops after exactly `maxRetries`
attempts, whereupon `ut_allocator::allocate` throws `bad_alloc` and
`ut_allocator::reallocate` returns null. -/
theorem C7_bounded_retry (T : CType) (pfxSize : Nat) (psi : Nat → Nat → Nat)
    (m_key : Nat) (os : Nat → Option Nat) (maxRetries : Nat) (store : Store)
    (n key p : Nat) (pfx : ut_new_pfx_t)
    (hmax : 1 ≤ maxRetries) :
    attemptCount (retryFrom os maxRetries 1).2 ≤ maxRetries ∧
    attemptCount (retryFrom os maxRetries 1).2 =
      sleepCount (retryFrom os maxRetries 1).2 + 1 ∧
    (∀ s, REv.sleepSec s ∈ (retryFrom os maxRetries 1).2 → s = 1) ∧
    ((∀ i, os i = none) →
      (retryFrom os maxRetries 1).1 = none ∧
      attemptCount (retryFrom os maxRetries 1).2 = maxRetries ∧
      (n ≤ max_size T.size pfxSize →
        (ut_allocator.allocate T pfxSize psi m_key os maxRetries store n
            key).1 = .error .badAlloc) ∧
      (n ≠ 0 → n ≤ max_size T.size pfxSize →
        store (p - pfxSize) = some pfx →
        (ut_allocator.reallocate T pfxSize psi m_key os maxRetries store
            (some p) n key).1 = .ok (none, store))) := by
  refine ⟨?_, retryFrom_sleep_count os maxRetries 1,
    retryFrom_sleep_one os maxRetries 1, ?_⟩
  · have h := retryFrom_attempts_le os maxRetries 1
    omega
  · intro hfail
    have hall := retryFrom_all_fail os hfail maxRetries 1 hmax
    have hnone := retryFrom_none os hfail maxRetries 1
    refine ⟨hall.1, by have := hall.2; omega, ?_, ?_⟩
    · intro hle
      unfold ut_allocator.allocate
      dsimp only
      rw [if_neg (by omega : ¬ max_size T.size pfxSize < n), hnone]
    · intro hn0 hle hstore
      unfold ut_allocator.reallocate
      dsimp only
      rw [if_neg hn0, if_neg (by omega : ¬ max_size T.size pfxSize < n),
        hstore, hnone]

/-- C7 witness: the theorem with a 60-attempt budget over an OS
allocator that always fails. -/
theorem C7_bounded_retry_witness :
    attemptCount (retryFrom (fun _ => none) 60 1).2 ≤ 60 ∧
    attemptCount (retryFrom (fun _ => none) 60 1).2 =
      sleepCount (retryFrom (fun _ => none) 60 1).2 + 1 ∧
    (∀ s, REv.sleepSec s ∈ (retryFrom (fun _ => none) 60 1).2 → s = 1) ∧
    ((∀ i : Nat, (fun _ : Nat => (none : Option Nat)) i = none) →
      (retryFrom (fun _ => none) 60 1).1 = none ∧
      attemptCount (retryFrom (fun _ => none) 60 1).2 = 60 ∧
      (5 ≤ max_size T1.size 32 →
        (ut_allocator.allocate T1 32 (fun k _ => k) 0 (fun _ => none) 60
            (storeWrite emptyStore 4096 ⟨7, 37⟩) 5 7).1 =
          .error .badAlloc) ∧
      (5 ≠ 0 → 5 ≤ max_size T1.size 32 →
        (storeWrite emptyStore 4096 ⟨7, 37⟩) (4128 - 32) = some ⟨7, 37⟩ →
        (ut_allocator.reallocate T1 32 (fun k _ => k) 0 (fun _ => none) 60
            (storeWrite emptyStore 4096 ⟨7, 37⟩) (some 4128) 5 7).1 =
          .ok (none, storeWrite emptyStore 4096 ⟨7, 37⟩))) :=
  C7_bounded_retry T1 32 (fun k _ => k) 0 (fun _ => none) 60
    (storeWrite emptyStore 4096 ⟨7, 37⟩) 5 7 4128 ⟨7, 37⟩ (by omega)

/-! ## C8 — header round-trip -/

/-- C8: a successful `ut_allocator::allocate(n)` leaves, at the address
one header-size before the returned pointer, exactly the header written
by `allocate_trace`, whose `m_size` is `n * sizeof(T) +
sizeof(ut_new_pfx_t)` (total bytes including the header); the recorded
user-byte count is an exact multiple of `sizeof(T)` and
`n_elements_allocated` recovers `n`. -/
theorem C8_header_roundtrip (T : CType) (pfxSize : Nat)
    (psi : Nat → Nat → Nat) (m_key : Nat) (os : Nat → Option Nat)
    (maxRetries : Nat) (store : Store) (n key q : Nat) (st : Store)
    (hok : (ut_allocator.allocate T pfxSize psi m_key os maxRetries store n
        key).1 = .ok (q, st)) :
    st (q - pfxSize) =
      some ⟨psi (memory_alloc_key m_key key) (n * T.size + pfxSize),
            n * T.size + pfxSize⟩ ∧
    ((⟨psi (memory_alloc_key m_key key) (n * T.size + pfxSize),
        n * T.size + pfxSize⟩ : ut_new_pfx_t).m_size - pfxSize) % T.size
      = 0 ∧
    ut_allocator.n_elements_allocated T pfxSize st q = some n := by
  have hs := T.size_pos
  unfold ut_allocator.allocate at hok
  dsimp only at hok
  by_cases hn : max_size T.size pfxSize < n
  · rw [if_pos hn] at hok
    simp at hok
  · rw [if_neg hn] at hok
    rcases hr : (retryFrom os maxRetries 1).1 with _ | base
    · rw [hr] at hok
      simp at hok
    · rw [hr] at hok
      dsimp only [allocate_trace] at hok
      simp only [Except.ok.injEq, Prod.mk.injEq] at hok
      obtain ⟨⟨hq, hst⟩⟩ := And.intro hok trivial
      have hq' : q = base + pfxSize := hq.symm
      have hst' : st = storeWrite store base
          ⟨psi (memory_alloc_key m_key key) (n * T.size + pfxSize),
           n * T.size + pfxSize⟩ := hst.symm
      have haddr : q - pfxSize = base := by omega
      have hhit : st (q - pfxSize) =
          some ⟨psi (memory_alloc_key m_key key) (n * T.size + pfxSize),
                n * T.size + pfxSize⟩ := by
        rw [hst', haddr]
        simp [storeWrite]
      refine ⟨hhit, ?_, ?_⟩
      · simp [Nat.add_sub_cancel, Nat.mul_mod_left]
      · unfold ut_allocator.n_elements_allocated
        rw [hhit]
        simp [Nat.add_sub_cancel, Nat.mul_div_cancel _ hs]

/-- C8 witness: a concrete successful allocation of 10 one-byte
elements with a 32-byte header: the OS block at 4096 carries the header
`⟨7, 42⟩` and the user pointer is 4128. -/
theorem C8_header_roundtrip_witness :
    (storeWrite emptyStore 4096 ⟨7, 42⟩) (4128 - 32) = some ⟨7, 42⟩ ∧
    ((⟨7, 42⟩ : ut_new_pfx_t).m_size - 32) % T1.size = 0 ∧
    ut_allocator.n_elements_allocated T1 32
      (storeWrite emptyStore 4096 ⟨7, 42⟩) 4128 = some 10 := by
  have hr : retryFrom (fun _ => some 4096) 60 1 =
      (some 4096, [REv.attempt 1]) := by
    rw [retryFrom]
    simp
  have hok : (ut_allocator.allocate T1 32 (fun k _ => k) 0
      (fun _ => some 4096) 60 emptyStore 10 7).1 =
      .ok (4128, storeWrite emptyStore 4096 ⟨7, 42⟩) := by
    have hT : T1.size = 1 := rfl
    unfold ut_allocator.allocate
    dsimp only
    rw [if_neg (by norm_num [max_size, SIZE_MAX, hT] :
      ¬ max_size T1.size 32 < 10), hr]
    dsimp only [allocate_trace, memory_alloc_key, PSI_NOT_INSTRUMENTED]
    norm_num [hT]
  exact C8_header_roundtrip T1 32 (fun k _ => k) 0 (fun _ => some 4096) 60
    emptyStore 10 7 4128 (storeWrite emptyStore 4096 ⟨7, 42⟩) hok

/-! ## C6 — realloc semantics -/

/-- C6, counterexample: at `ptr = null, n = 0` the two claim clauses
conflict and the code follows the `n == 0` clause: `reallocate(nullptr,
0)` frees nothing and returns null with no accounting event, while "a
fresh allocation of 0" (`allocate(0)`) succeeds with the non-null
pointer 4128 and installs an accounting entry. -/
theorem C6_realloc_counterexample :
    (ut_allocator.reallocate T1 32 (fun k _ => k) 0 (fun _ => some 4096) 60
        emptyStore none 0 7).1.map Prod.fst = .ok none ∧
    (ut_allocator.reallocate T1 32 (fun k _ => k) 0 (fun _ => some 4096) 60
        emptyStore none 0 7).2 = [] ∧
    (ut_allocator.allocate T1 32 (fun k _ => k) 0 (fun _ => some 4096) 60
        emptyStore 0 7).1.map Prod.fst = .ok 4128 ∧
    psiAllocCount (ut_allocator.allocate T1 32 (fun k _ => k) 0
        (fun _ => some 4096) 60 emptyStore 0 7).2 = 1 ∧
    (Except.ok (none : Option Nat) : Except Err (Option Nat)) ≠
      Except.ok (some 4128) := by
  have hT : T1.size = 1 := rfl
  have hr : retryFrom (fun _ => some 4096) 60 1 =
      (some 4096, [REv.attempt 1]) := by
    rw [retryFrom]
    simp
  have ha : (ut_allocator.allocate T1 32 (fun k _ => k) 0
      (fun _ => some 4096) 60 emptyStore 0 7) =
      (.ok (4128, storeWrite emptyStore 4096 ⟨7, 32⟩),
       [REv.attempt 1, REv.psiAlloc 7 32]) := by
    unfold ut_allocator.allocate
    dsimp only
    rw [if_neg (by norm_num [max_size, SIZE_MAX, hT] :
      ¬ max_size T1.size 32 < 0), hr]
    dsimp only [allocate_trace, memory_alloc_key, PSI_NOT_INSTRUMENTED]
    norm_num [hT]
  refine ⟨rfl, rfl, ?_, ?_, by simp⟩
  · rw [ha]
    rfl
  · rw [ha]
    rfl

/-- C6, amended: `reallocate` checks `n == 0` first, so `reallocate(p,
0)` — for null and non-null `p` alike — frees `p` and returns null,
retiring the old accounting entry exactly once; `reallocate(nullptr, n)`
for `n ≠ 0` behaves as a fresh allocation of `n`; and a successful
resize retires the old entry exactly once and installs the new entry
exactly once, in that order, within the same operation. -/
theorem C6_realloc_amended (T : CType) (pfxSize : Nat)
    (psi : Nat → Nat → Nat) (m_key : Nat) (os : Nat → Option Nat)
    (maxRetries : Nat) (store : Store) (n key p newBase : Nat)
    (pfx_old : ut_new_pfx_t) (revs : List REv)
    (hn : n ≠ 0) :
    (ut_allocator.reallocate T pfxSize psi m_key os maxRetries store none n
        key =
      ((ut_allocator.allocate T pfxSize psi m_key os maxRetries store n
          key).1.map (fun r => (some r.1, r.2)),
       (ut_allocator.allocate T pfxSize psi m_key os maxRetries store n
          key).2)) ∧
    (store (p - pfxSize) = some pfx_old →
      ut_allocator.reallocate T pfxSize psi m_key os maxRetries store
          (some p) 0 key =
        (.ok (none, storeErase store (p - pfxSize)),
         [REv.psiFree pfx_old.m_key pfx_old.m_size])) ∧
    (¬ max_size T.size pfxSize < n → store (p - pfxSize) = some pfx_old →
      retryFrom os maxRetries 1 = (some newBase, revs) →
      ut_allocator.reallocate T pfxSize psi m_key os maxRetries store
          (some p) n key =
        (.ok (some (newBase + pfxSize),
              storeWrite (storeErase store (p - pfxSize)) newBase
                ⟨psi (memory_alloc_key m_key key) (n * T.size + pfxSize),
                 n * T.size + pfxSize⟩),
         revs ++ [REv.psiFree pfx_old.m_key pfx_old.m_size,
                  REv.psiAlloc (memory_alloc_key m_key key)
                    (n * T.size + pfxSize)]) ∧
      psiFreeCount (ut_allocator.reallocate T pfxSize psi m_key os
          maxRetries store (some p) n key).2 = 1 ∧
      psiAllocCount (ut_allocator.reallocate T pfxSize psi m_key os
          maxRetries store (some p) n key).2 = 1) := by
  refine ⟨?_, ?_, ?_⟩
  · unfold ut_allocator.reallocate
    dsimp only
    rw [if_neg hn]
  · intro hstore
    unfold ut_allocator.reallocate ut_allocator.deallocate
    dsimp only
    rw [if_pos rfl, hstore]
    simp [deallocate_trace]
  · intro hmax hstore hretry
    have heq : ut_allocator.reallocate T pfxSize psi m_key os maxRetries
        store (some p) n key =
        (.ok (some (newBase + pfxSize),
              storeWrite (storeErase store (p - pfxSize)) newBase
                ⟨psi (memory_alloc_key m_key key) (n * T.size + pfxSize),
                 n * T.size + pfxSize⟩),
         revs ++ [REv.psiFree pfx_old.m_key pfx_old.m_size,
                  REv.psiAlloc (memory_alloc_key m_key key)
                    (n * T.size + pfxSize)]) := by
      unfold ut_allocator.reallocate
      dsimp only
      rw [if_neg hn, if_neg hmax, hstore, hretry]
      simp [allocate_trace, deallocate_trace]
    have hnopsi := retryFrom_no_psi os maxRetries 1
    rw [hretry] at hnopsi
    dsimp only at hnopsi
    refine ⟨heq, ?_, ?_⟩
    · rw [heq]
      have h2 := hnopsi.2
      simp [psiFreeCount, List.countP_append, List.countP_cons] at h2 ⊢
      exact h2
    · rw [heq]
      have h1 := hnopsi.1
      simp [psiAllocCount, List.countP_append, List.countP_cons] at h1 ⊢
      exact h1

/-- C6 witness: the amended theorem at a one-byte element type with a
successful one-attempt resize from the block at 4096 to a new block at
8192. -/
theorem C6_realloc_amended_witness :
    (ut_allocator.reallocate T1 32 (fun k _ => k) 0 (fun _ => some 8192) 60
        (storeWrite emptyStore 4096 ⟨3, 37⟩) none 5 7 =
      ((ut_allocator.allocate T1 32 (fun k _ => k) 0 (fun _ => some 8192) 60
          (storeWrite emptyStore 4096 ⟨3, 37⟩) 5 7).1.map
            (fun r => (some r.1, r.2)),
       (ut_allocator.allocate T1 32 (fun k _ => k) 0 (fun _ => some 8192) 60
          (storeWrite emptyStore 4096 ⟨3, 37⟩) 5 7).2)) ∧
    ((storeWrite emptyStore 4096 ⟨3, 37⟩) (4128 - 32) = some ⟨3, 37⟩ →
      ut_allocator.reallocate T1 32 (fun k _ => k) 0 (fun _ => some 8192) 60
          (storeWrite emptyStore 4096 ⟨3, 37⟩) (some 4128) 0 7 =
        (.ok (none, storeErase (storeWrite emptyStore 4096 ⟨3, 37⟩)
              (4128 - 32)),
         [REv.psiFree (⟨3, 37⟩ : ut_new_pfx_t).m_key
            (⟨3, 37⟩ : ut_new_pfx_t).m_size])) ∧
    (¬ max_size T1.size 32 < 5 →
      (storeWrite emptyStore 4096 ⟨3, 37⟩) (4128 - 32) = some ⟨3, 37⟩ →
      retryFrom (fun _ => some 8192) 60 1 = (some 8192, [REv.attempt 1]) →
      ut_allocator.reallocate T1 32 (fun k _ => k) 0 (fun _ => some 8192) 60
          (storeWrite emptyStore 4096 ⟨3, 37⟩) (some 4128) 5 7 =
        (.ok (some (8192 + 32),
              storeWrite (storeErase (storeWrite emptyStore 4096 ⟨3, 37⟩)
                  (4128 - 32)) 8192
                ⟨(fun k _ => k) (memory_alloc_key 0 7) (5 * T1.size + 32),
                 5 * T1.size + 32⟩),
         [REv.attempt 1] ++
           [REv.psiFree (⟨3, 37⟩ : ut_new_pfx_t).m_key
              (⟨3, 37⟩ : ut_new_pfx_t).m_size,
            REv.psiAlloc (memory_alloc_key 0 7) (5 * T1.size + 32)]) ∧
      psiFreeCount (ut_allocator.reallocate T1 32 (fun k _ => k) 0
          (fun _ => some 8192) 60 (storeWrite emptyStore 4096 ⟨3, 37⟩)
          (some 4128) 5 7).2 = 1 ∧
      psiAllocCount (ut_allocator.reallocate T1 32 (fun k _ => k) 0
          (fun _ => some 8192) 60 (storeWrite emptyStore 4096 ⟨3, 37⟩)
          (some 4128) 5 7).2 = 1) :=
  C6_realloc_amended T1 32 (fun k _ => k) 0 (fun _ => some 8192) 60
    (storeWrite emptyStore 4096 ⟨3, 37⟩) 5 7 4128 8192 ⟨3, 37⟩
    [REv.attempt 1] (by omega)
